import Mathlib

/-!
Verification of the IELTS AI backend (an in-memory Express/serverless demo
service). The development shallowly embeds the request handlers of
server.js, api-order-test.js, the serverless submit handler and the
serverless job handler as pure Lean functions over an explicit server
state. External effects are oracle parameters:

* the chat-completion / transcription calls become `Except String String`
  arguments (`Except.error` = the JS call threw or returned non-2xx,
  `Except.ok s` = it returned the text `s`);
* `JSON.parse` becomes a `String → Option Json` argument (`none` = the JS
  parse threw);
* every `uuidv4()` / clock read becomes a plain argument.

JSON values are modelled by the inductive `Json`; JS numbers appearing in
the service are integer literals, so `Json.num` carries an `Int`.
-/

/-- A JSON value as the service stores and passes them: the stored tests,
the parsed model output, the submitted answers and the graded results. -/
inductive Json where
  | null
  | bool (b : Bool)
  | num (n : Int)
  | str (s : String)
  | arr (elems : List Json)
  | obj (fields : List (String × Json))

mutual

/-- Decidable equality of JSON values (the derive handler does not cover
this nested inductive, so it is spelled out). -/
def Json.decEq : (a b : Json) → Decidable (a = b)
  | Json.null, Json.null => isTrue rfl
  | Json.null, Json.bool _ => isFalse (fun h => Json.noConfusion h)
  | Json.null, Json.num _ => isFalse (fun h => Json.noConfusion h)
  | Json.null, Json.str _ => isFalse (fun h => Json.noConfusion h)
  | Json.null, Json.arr _ => isFalse (fun h => Json.noConfusion h)
  | Json.null, Json.obj _ => isFalse (fun h => Json.noConfusion h)
  | Json.bool _, Json.null => isFalse (fun h => Json.noConfusion h)
  | Json.bool a, Json.bool b =>
    if h : a = b then isTrue (by rw [h]) else isFalse (by intro hh; injection hh; exact h (by assumption))
  | Json.bool _, Json.num _ => isFalse (fun h => Json.noConfusion h)
  | Json.bool _, Json.str _ => isFalse (fun h => Json.noConfusion h)
  | Json.bool _, Json.arr _ => isFalse (fun h => Json.noConfusion h)
  | Json.bool _, Json.obj _ => isFalse (fun h => Json.noConfusion h)
  | Json.num _, Json.null => isFalse (fun h => Json.noConfusion h)
  | Json.num _, Json.bool _ => isFalse (fun h => Json.noConfusion h)
  | Json.num a, Json.num b =>
    if h : a = b then isTrue (by rw [h]) else isFalse (by intro hh; injection hh; exact h (by assumption))
  | Json.num _, Json.str _ => isFalse (fun h => Json.noConfusion h)
  | Json.num _, Json.arr _ => isFalse (fun h => Json.noConfusion h)
  | Json.num _, Json.obj _ => isFalse (fun h => Json.noConfusion h)
  | Json.str _, Json.null => isFalse (fun h => Json.noConfusion h)
  | Json.str _, Json.bool _ => isFalse (fun h => Json.noConfusion h)
  | Json.str _, Json.num _ => isFalse (fun h => Json.noConfusion h)
  | Json.str a, Json.str b =>
    if h : a = b then isTrue (by rw [h]) else isFalse (by intro hh; injection hh; exact h (by assumption))
  | Json.str _, Json.arr _ => isFalse (fun h => Json.noConfusion h)
  | Json.str _, Json.obj _ => isFalse (fun h => Json.noConfusion h)
  | Json.arr _, Json.null => isFalse (fun h => Json.noConfusion h)
  | Json.arr _, Json.bool _ => isFalse (fun h => Json.noConfusion h)
  | Json.arr _, Json.num _ => isFalse (fun h => Json.noConfusion h)
  | Json.arr _, Json.str _ => isFalse (fun h => Json.noConfusion h)
  | Json.arr xs, Json.arr ys =>
    match Json.decEqList xs ys with
    | isTrue h => isTrue (by rw [h])
    | isFalse h => isFalse (by intro hh; injection hh; exact h (by assumption))
  | Json.arr _, Json.obj _ => isFalse (fun h => Json.noConfusion h)
  | Json.obj _, Json.null => isFalse (fun h => Json.noConfusion h)
  | Json.obj _, Json.bool _ => isFalse (fun h => Json.noConfusion h)
  | Json.obj _, Json.num _ => isFalse (fun h => Json.noConfusion h)
  | Json.obj _, Json.str _ => isFalse (fun h => Json.noConfusion h)
  | Json.obj _, Json.arr _ => isFalse (fun h => Json.noConfusion h)
  | Json.obj xs, Json.obj ys =>
    match Json.decEqFields xs ys with
    | isTrue h => isTrue (by rw [h])
    | isFalse h => isFalse (by intro hh; injection hh; exact h (by assumption))

/-- Decidable equality of JSON value lists. -/
def Json.decEqList : (xs ys : List Json) → Decidable (xs = ys)
  | [], [] => isTrue rfl
  | [], _ :: _ => isFalse (fun h => List.noConfusion h)
  | _ :: _, [] => isFalse (fun h => List.noConfusion h)
  | x :: xs, y :: ys =>
    match Json.decEq x y, Json.decEqList xs ys with
    | isTrue h1, isTrue h2 => isTrue (by rw [h1, h2])
    | isFalse h1, _ => isFalse (by intro hh; injection hh; exact h1 (by assumption))
    | _, isFalse h2 => isFalse (by intro hh; injection hh; exact h2 (by assumption))

/-- Decidable equality of JSON object field lists. -/
def Json.decEqFields : (xs ys : List (String × Json)) → Decidable (xs = ys)
  | [], [] => isTrue rfl
  | [], _ :: _ => isFalse (fun h => List.noConfusion h)
  | _ :: _, [] => isFalse (fun h => List.noConfusion h)
  | (k1, v1) :: xs, (k2, v2) :: ys =>
    match String.decEq k1 k2, Json.decEq v1 v2, Json.decEqFields xs ys with
    | isTrue h1, isTrue h2, isTrue h3 => isTrue (by rw [h1, h2, h3])
    | isFalse h1, _, _ =>
      isFalse (by intro hh; injection hh with hp ht; injection hp; exact h1 (by assumption))
    | _, isFalse h2, _ =>
      isFalse (by intro hh; injection hh with hp ht; injection hp; exact h2 (by assumption))
    | _, _, isFalse h3 => isFalse (by intro hh; injection hh with hp ht; exact h3 ht)

end

instance : DecidableEq Json := Json.decEq

/-- Lookup in a string-keyed association list, embedding a JS object read
`m[k]` (`none` = the key is absent, i.e. `undefined`). -/
def getAssoc {β : Type} (k : String) : List (String × β) → Option β
  | [] => none
  | (k2, v) :: rest => if k2 = k then some v else getAssoc k rest

/-- Update in a string-keyed association list, embedding a JS object write
`m[k] = v`: replaces the binding in place or appends a new one, keeping
the insertion order that `Object.values` iterates in. -/
def setAssoc {β : Type} (k : String) (v : β) : List (String × β) → List (String × β)
  | [] => [(k, v)]
  | (k2, v2) :: rest => if k2 = k then (k, v) :: rest else (k2, v2) :: setAssoc k v rest

/-- Field read `j.f` on a JSON value: `some` only on objects with the
field present; every other case is the JS `undefined`. -/
def jGet (j : Json) (k : String) : Option Json :=
  match j with
  | Json.obj fields => getAssoc k fields
  | _ => none

/-- JS truthiness of a JSON value: `null`, `false`, `0` and `""` are
falsy; arrays and objects are always truthy. -/
def jTruthy : Json → Bool
  | Json.null => false
  | Json.bool b => b
  | Json.num n => n != 0
  | Json.str s => s != ""
  | Json.arr _ => true
  | Json.obj _ => true

mutual

/-- JS string conversion of a JSON value, as a template literal or an
object-key coercion performs it. -/
def jStr : Json → String
  | Json.null => "null"
  | Json.bool b => if b then "true" else "false"
  | Json.num n => toString n
  | Json.str s => s
  | Json.arr xs => String.intercalate "," (jStrElems xs)
  | Json.obj _ => "[object Object]"

/-- Element strings of a JS array conversion: `null` elements render as
the empty string inside `Array.prototype.join`. -/
def jStrElems : List Json → List String
  | [] => []
  | j :: rest =>
    (match j with
     | Json.null => ""
     | j2 => jStr j2) :: jStrElems rest

end

example : jTruthy (Json.obj []) = true := by decide
example : getAssoc "a" (setAssoc "a" (1 : Int) []) = some 1 := by decide
example : jStr (Json.arr [Json.num 1, Json.null, Json.str "x"]) = "1,,x" := by decide

/-- An Order record as `ORDERS[orderId]` stores it (server.js line 111,
api-order-test.js line 68). -/
structure Order where
  orderId : String
  testId : String
  test : Json
  status : String
  createdAt : String
  type : String
  level : String
  testUrl : String
deriving DecidableEq

/-- A Submission/Job record as `SUBMISSIONS[jobId]` stores it
(server.js lines 176 and 195, serverless submit handler line 44): the
writing path fills `answers`, the speaking path fills `transcript`. -/
structure Job where
  jobId : String
  testId : String
  type : String
  answers : Option (List Json)
  transcript : Option String
  result : Json
  createdAt : String
deriving DecidableEq

/-- The process-global in-memory stores: `TESTS`, `ORDERS`, `SUBMISSIONS`
and the per-client `RATE` buckets. Orders are listed in insertion order
(the order `Object.values` iterates in); rate buckets hold millisecond
timestamps. -/
structure ServerState where
  tests : List (String × Json)
  orders : List Order
  submissions : List (String × Job)
  rate : List (String × List Nat)
deriving DecidableEq

/-- Update an order keyed by its `orderId`, embedding
`ORDERS[orderId] = order`. -/
def putOrder (o : Order) : List Order → List Order
  | [] => [o]
  | o2 :: rest => if o2.orderId = o.orderId then o :: rest else o2 :: putOrder o rest

/-- The 24-hour rate window in milliseconds (api-order-test.js line 58). -/
def RATE_WINDOW : Nat := 24 * 60 * 60 * 1000

/-- The rate-limiter step of the serverless order handler
(api-order-test.js lines 58-60): prune timestamps older than 24 hours,
reject if five or more remain (without recording the attempt), otherwise
record the current timestamp. Returns (allowed, new bucket). -/
def rateAllow (now : Nat) (bucket : List Nat) : Bool × List Nat :=
  let pruned := bucket.filter (fun t => now - t < RATE_WINDOW)
  if 5 ≤ pruned.length then (false, pruned) else (true, pruned ++ [now])

/-- The default level `level || "ielts-6"`. The embedding renders an
absent or falsy request field as the empty string. -/
def defLevel (level : String) : String := if level = "" then "ielts-6" else level

/-- The default task count `numTasks || 1` (0 embeds a falsy field). -/
def defTasks (numTasks : Nat) : Nat := if numTasks = 0 then 1 else numTasks

/-- The shareable URL `SITE_BASE + "/?testId=" + testId` of server.js
line 109 (the serverless variant at api-order-test.js line 67 produces
the identical string through a ternary). `encodeURIComponent` is left as
the identity: every identifier the service mints or echoes is used as-is
in the claims, none contains a reserved character. -/
def mkTestUrl (siteBase testId : String) : String :=
  siteBase ++ "/?testId=" ++ testId

/-- The canned fallback prompt of server.js line 75 and
api-order-test.js line 33. -/
def FALLBACK_PROMPT : String :=
  "Write an essay (250+ words) on: The benefits of online education."

/-- The fallback writing Test both generators return when the generation
call fails or its response is not valid JSON (server.js line 75,
api-order-test.js line 33). -/
def fallbackWritingTest (id level : String) : Json :=
  Json.obj
    [("test_id", Json.str id), ("type", Json.str "writing"), ("level", Json.str level),
     ("questions",
      Json.arr
        [Json.obj
          [("id", Json.str "q1"), ("title", Json.str "Task 2"),
           ("prompt", Json.str FALLBACK_PROMPT)]])]

/-- The fixed speaking Test of the main server (server.js lines 81-90):
three parts, varying only in the generated identifier and the level. -/
def speakingTest (id level : String) : Json :=
  Json.obj
    [("test_id", Json.str id), ("type", Json.str "speaking"), ("level", Json.str level),
     ("parts",
      Json.arr
        [Json.obj
          [("part", Json.num 1),
           ("items",
            Json.arr
              [Json.obj [("id", Json.str "p1q1"), ("q", Json.str "What is your full name?")],
               Json.obj [("id", Json.str "p1q2"), ("q", Json.str "Where are you from?")]])],
         Json.obj
          [("part", Json.num 2), ("cue", Json.str "Describe a memorable trip you had."),
           ("prep_time", Json.num 60), ("speak_time", Json.num 120)],
         Json.obj
          [("part", Json.num 3),
           ("items",
            Json.arr
              [Json.obj [("id", Json.str "p3q1"), ("q", Json.str "Why do people travel?")]])]])]

/-- The fixed speaking Test of the serverless order handler
(api-order-test.js lines 37-43): only the first two parts, no discussion
part. -/
def speakingTestApi (id level : String) : Json :=
  Json.obj
    [("test_id", Json.str id), ("type", Json.str "speaking"), ("level", Json.str level),
     ("parts",
      Json.arr
        [Json.obj
          [("part", Json.num 1),
           ("items",
            Json.arr
              [Json.obj [("id", Json.str "p1q1"), ("q", Json.str "What is your full name?")]])],
         Json.obj
          [("part", Json.num 2), ("cue", Json.str "Describe a memorable trip you had."),
           ("prep_time", Json.num 60), ("speak_time", Json.num 120)]])]

/-- The default stub Test for any other type (server.js line 94,
api-order-test.js line 45). -/
def stubTest (id type level : String) : Json :=
  Json.obj
    [("test_id", Json.str id), ("type", Json.str type), ("level", Json.str level),
     ("questions", Json.arr [])]

/-- The test generator of the main server (server.js lines 64-95).
`jp` embeds `JSON.parse`; `ai` embeds the chat-completion call whose
request carries `numTasks` and `level` inside the prompt (the prompt text
only feeds the external oracle, so `numTasks` does not influence the
result beyond that call); `genId` embeds the `uuidv4()` of line 65. On a
failed call or unparsable response the writing branch falls back instead
of throwing. -/
def generateTest (jp : String → Option Json) (type level : String) (numTasks : Nat)
    (genId : String) (ai : Except String String) : Json :=
  if type = "writing" then
    match ai with
    | Except.error _ => fallbackWritingTest genId level
    | Except.ok text =>
      match jp text with
      | some parsed => parsed
      | none => fallbackWritingTest genId level
  else if type = "speaking" then speakingTest genId level
  else stubTest genId type level

/-- The test generator of the serverless order handler
(api-order-test.js lines 23-46): identical to `generateTest` except for
the two-part speaking structure. -/
def generateTestApi (jp : String → Option Json) (type level : String) (numTasks : Nat)
    (genId : String) (ai : Except String String) : Json :=
  if type = "writing" then
    match ai with
    | Except.error _ => fallbackWritingTest genId level
    | Except.ok text =>
      match jp text with
      | some parsed => parsed
      | none => fallbackWritingTest genId level
  else if type = "speaking" then speakingTestApi genId level
  else stubTest genId type level

/-- The identifier a generated test is stored under:
`test.test_id || uuidv4()` (server.js line 107, api-order-test.js
line 64). A missing or falsy `test_id` falls back to a fresh identifier
(`fallback`); a truthy non-string is coerced the way a JS object key is. -/
def testIdOf (test : Json) (fallback : String) : String :=
  match jGet test "test_id" with
  | some v => if jTruthy v then jStr v else fallback
  | none => fallback

/-- Outcome of an order-test request. `serverError` stands for the
catch-all 500 response (its JSON body carries the error message text,
which the embedding does not inspect). -/
inductive OrderOutcome where
  | methodNotAllowed
  | badRequest (msg : String)
  | quota
  | serverError
  | ok (orderId testId testUrl : String)
deriving DecidableEq

/-- Outcome of a submit request; `ok` carries the jobId and the graded
result echoed to the caller. -/
inductive SubmitOutcome where
  | notFound
  | badRequest (msg : String)
  | serverError
  | ok (jobId : String) (result : Json)
deriving DecidableEq

/-- Outcome of fetching a test. -/
inductive GetOutcome where
  | notFound
  | ok (test : Json)
deriving DecidableEq

/-- Outcome of fetching a job. -/
inductive JobOutcome where
  | notFound
  | ok (job : Job)
deriving DecidableEq

/-- A submit request body: multipart audio (`req.file` present) or a JSON
body whose `answers` field may be absent (`none`, the `body.answers || []`
default applies). -/
inductive SubmitPayload where
  | audio
  | json (answers : Option (List Json))
deriving DecidableEq

/-- POST /api/order-test of the main server (server.js lines 100-119).
No rate limiting here — only the serverless variant has it. `orderId`
embeds the `uuidv4()` of line 105, `genId` the one inside the generator,
`altTestId` the `uuidv4()` fallback of line 107, `nowIso` the
`new Date().toISOString()`. A falsy `testType` is embedded as `""`. When
the parsed model output is JSON `null`, reading `test.test_id` throws and
the catch returns 500 with no store mutated. -/
def orderTestExpress (jp : String → Option Json) (siteBase : String) (st : ServerState)
    (testType level : String) (numTasks : Nat) (ai : Except String String)
    (orderId genId altTestId nowIso : String) : OrderOutcome × ServerState :=
  if testType = "" then (OrderOutcome.badRequest "testType required", st)
  else
    let test := generateTest jp testType (defLevel level) (defTasks numTasks) genId ai
    if test = Json.null then (OrderOutcome.serverError, st)
    else
      let testId := testIdOf test altTestId
      let testUrl := mkTestUrl siteBase testId
      let order : Order :=
        { orderId := orderId, testId := testId, test := test, status := "ready",
          createdAt := nowIso, type := testType, level := defLevel level, testUrl := testUrl }
      (OrderOutcome.ok orderId testId testUrl,
       { st with tests := setAssoc testId test st.tests, orders := putOrder order st.orders })

/-- POST /api/order-test of the serverless handler (api-order-test.js
lines 48-75): method check, `testType` check, then the rate limiter —
note the pruned bucket is written back even on rejection, but the
attempt is only recorded on acceptance, and it is recorded before the
generation call (so a later 500 still consumes quota). `ip` embeds the
client identifier of line 54. -/
def orderTestApi (jp : String → Option Json) (siteBase : String) (st : ServerState)
    (isPost : Bool) (ip testType level : String) (numTasks : Nat) (now : Nat)
    (ai : Except String String) (orderId genId altTestId nowIso : String) :
    OrderOutcome × ServerState :=
  if isPost = false then (OrderOutcome.methodNotAllowed, st)
  else if testType = "" then (OrderOutcome.badRequest "testType required", st)
  else
    let bucket := (getAssoc ip st.rate).getD []
    let ra := rateAllow now bucket
    if ra.fst = false then (OrderOutcome.quota, { st with rate := setAssoc ip ra.snd st.rate })
    else
      let st1 := { st with rate := setAssoc ip ra.snd st.rate }
      let test := generateTestApi jp testType (defLevel level) (defTasks numTasks) genId ai
      if test = Json.null then (OrderOutcome.serverError, st1)
      else
        let testId := testIdOf test altTestId
        let testUrl := mkTestUrl siteBase testId
        let order : Order :=
          { orderId := orderId, testId := testId, test := test, status := "ready",
            createdAt := nowIso, type := testType, level := defLevel level, testUrl := testUrl }
        (OrderOutcome.ok orderId testId testUrl,
         { st1 with tests := setAssoc testId test st1.tests, orders := putOrder order st1.orders })

/-- Fallback JSON parse of a grading response (server.js lines 174 and
193, serverless submit line 42): the parsed value, or `{raw: text}` when
the text is not valid JSON. -/
def parseOrRaw (jp : String → Option Json) (text : String) : Json :=
  match jp text with
  | some j => j
  | none => Json.obj [("raw", Json.str text)]

/-- Marking step of server.js lines 178 and 196: an order referencing the
submitted testId becomes `graded`, any other order is untouched. -/
def markGraded (tid : String) (o : Order) : Order :=
  if o.testId = tid then { o with status := "graded" } else o

/-- A Job record under construction (server.js lines 176/195, serverless
submit line 44). -/
def mkJob (jobId tid ty : String) (answers : Option (List Json)) (transcript : Option String)
    (result : Json) (nowIso : String) : Job :=
  { jobId := jobId, testId := tid, type := ty, answers := answers, transcript := transcript,
    result := result, createdAt := nowIso }

/-- The essay the writing path extracts,
`(answers[0] && answers[0].answerText) || ""` (server.js line 186,
serverless submit line 35), as the string the grading prompt interpolates:
a missing, falsy or non-object first answer and a missing or falsy
`answerText` all yield the empty string. The essay only feeds the
external grading call. -/
def essayStr (answers : List Json) : String :=
  match answers with
  | [] => ""
  | a :: _ =>
    match jGet a "answerText" with
    | some v => if jTruthy v then jStr v else ""
    | none => ""

/-- POST /api/test/:testId/submit of the main server (server.js lines
143-205). `transcribe` embeds the whisper transcription call (its `ok`
value is the `trj.text || ""` of line 166); `grade` the grading
chat-completion call. A multipart request takes the speaking path
regardless of the stored test type; a JSON request requires a writing
test. A thrown external call surfaces as the catch-all 500 with no store
mutated; a grading response that is not valid JSON is stored as
`{raw: text}`. On success the submission is recorded and every order
referencing the testId is marked graded. -/
def submitExpress (jp : String → Option Json) (st : ServerState) (tid : String)
    (payload : SubmitPayload) (transcribe grade : Except String String)
    (jobId nowIso : String) : SubmitOutcome × ServerState :=
  match getAssoc tid st.tests with
  | none => (SubmitOutcome.notFound, st)
  | some test =>
    if jTruthy test = false then (SubmitOutcome.notFound, st)
    else
      match payload with
      | SubmitPayload.audio =>
        match transcribe with
        | Except.error _ => (SubmitOutcome.serverError, st)
        | Except.ok transcript =>
          match grade with
          | Except.error _ => (SubmitOutcome.serverError, st)
          | Except.ok evalResp =>
            let parsed := parseOrRaw jp evalResp
            (SubmitOutcome.ok jobId parsed,
             { st with
                 submissions :=
                   setAssoc jobId (mkJob jobId tid "speaking" none (some transcript) parsed nowIso)
                     st.submissions,
                 orders := st.orders.map (markGraded tid) })
      | SubmitPayload.json answers =>
        if jGet test "type" = some (Json.str "writing") then
          match grade with
          | Except.error _ => (SubmitOutcome.serverError, st)
          | Except.ok evalResp =>
            let parsed := parseOrRaw jp evalResp
            (SubmitOutcome.ok jobId parsed,
             { st with
                 submissions :=
                   setAssoc jobId
                     (mkJob jobId tid "writing" (some (answers.getD [])) none parsed nowIso)
                     st.submissions,
                 orders := st.orders.map (markGraded tid) })
        else (SubmitOutcome.badRequest "Unsupported submission type", st)

/-- POST /api/test/[testId]/submit of the serverless handler (the
unnamed submit source, lines 22-53): rejects multipart, handles only the
writing path, records the submission — and, unlike the main server,
never touches the order store. -/
def submitApi (jp : String → Option Json) (st : ServerState) (tid : String)
    (isMultipart : Bool) (answers : Option (List Json)) (grade : Except String String)
    (jobId nowIso : String) : SubmitOutcome × ServerState :=
  match getAssoc tid st.tests with
  | none => (SubmitOutcome.notFound, st)
  | some test =>
    if jTruthy test = false then (SubmitOutcome.notFound, st)
    else if isMultipart then
      (SubmitOutcome.badRequest
        "Multipart uploads not supported in demo. Send transcript or use base64 + separate upload.",
       st)
    else if jGet test "type" = some (Json.str "writing") then
      match grade with
      | Except.error _ => (SubmitOutcome.serverError, st)
      | Except.ok evalResp =>
        let parsed := parseOrRaw jp evalResp
        (SubmitOutcome.ok jobId parsed,
         { st with
             submissions :=
               setAssoc jobId (mkJob jobId tid "writing" (some (answers.getD [])) none parsed nowIso)
                 st.submissions })
    else (SubmitOutcome.badRequest "Unsupported submission type", st)

/-- GET /api/test/:testId (server.js lines 136-140): a read, `!t` sends
404 for an absent or falsy stored test. -/
def getTestRoute (st : ServerState) (tid : String) : GetOutcome :=
  match getAssoc tid st.tests with
  | none => GetOutcome.notFound
  | some t => if jTruthy t = false then GetOutcome.notFound else GetOutcome.ok t

/-- GET /api/job/:jobId (server.js lines 208-212 and the serverless job
handler): a read. -/
def getJobRoute (st : ServerState) (jid : String) : JobOutcome :=
  match getAssoc jid st.submissions with
  | none => JobOutcome.notFound
  | some j => JobOutcome.ok j

/-- A row of GET /api/my-tests (server.js lines 122-133). -/
structure OrderSummary where
  orderId : String
  testId : String
  type : String
  level : String
  status : String
  createdAt : String
  testUrl : String
deriving DecidableEq

/-- GET /api/my-tests (server.js lines 122-133): a read that recomputes
each testUrl. -/
def myTestsRoute (siteBase : String) (st : ServerState) : List OrderSummary :=
  st.orders.map (fun o =>
    { orderId := o.orderId, testId := o.testId, type := o.type, level := o.level,
      status := o.status, createdAt := o.createdAt, testUrl := mkTestUrl siteBase o.testId })

/-- One client-visible operation of the service, with every external
input (oracle outcomes, fresh identifiers, clock reads) carried as data:
the two order handlers, the two submit handlers and the read-only
routes. -/
inductive Op where
  | orderE (siteBase testType level : String) (numTasks : Nat) (ai : Except String String)
      (orderId genId altTestId nowIso : String)
  | orderA (siteBase : String) (isPost : Bool) (ip testType level : String) (numTasks : Nat)
      (now : Nat) (ai : Except String String) (orderId genId altTestId nowIso : String)
  | submitE (tid : String) (payload : SubmitPayload) (transcribe grade : Except String String)
      (jobId nowIso : String)
  | submitA (tid : String) (isMultipart : Bool) (answers : Option (List Json))
      (grade : Except String String) (jobId nowIso : String)
  | getT (tid : String)
  | getJ (jid : String)
  | listT (siteBase : String)
  | health

/-- State transition of one operation: the GET routes and the health
check only read the stores. -/
def step (jp : String → Option Json) (st : ServerState) : Op → ServerState
  | Op.orderE sb tt lv n ai oid gid atid niso =>
    (orderTestExpress jp sb st tt lv n ai oid gid atid niso).snd
  | Op.orderA sb post ip tt lv n now ai oid gid atid niso =>
    (orderTestApi jp sb st post ip tt lv n now ai oid gid atid niso).snd
  | Op.submitE tid p tr gr jid niso => (submitExpress jp st tid p tr gr jid niso).snd
  | Op.submitA tid m ans gr jid niso => (submitApi jp st tid m ans gr jid niso).snd
  | Op.getT _ => st
  | Op.getJ _ => st
  | Op.listT _ => st
  | Op.health => st

/-- Run a sequence of operations. -/
def runOps (jp : String → Option Json) (st : ServerState) : List Op → ServerState
  | [] => st
  | op :: ops => runOps jp (step jp st op) ops

/-- The orderId an operation would create an Order under, if any. -/
def opOrderId : Op → Option String
  | Op.orderE _ _ _ _ _ oid _ _ _ => some oid
  | Op.orderA _ _ _ _ _ _ _ _ oid _ _ _ => some oid
  | _ => none

/-- The UUID-freshness assumption for one operation: an orderId about to
be minted does not collide with a stored one. -/
def opFresh (st : ServerState) (op : Op) : Bool :=
  match opOrderId op with
  | none => true
  | some oid => st.orders.all (fun o => o.orderId != oid)

/-- The UUID-freshness assumption along a run. -/
def freshRun (jp : String → Option Json) (st : ServerState) : List Op → Bool
  | [] => true
  | op :: ops => opFresh st op && freshRun jp (step jp st op) ops

/-! ## Helper lemmas -/

/-- A key just written is read back. -/
lemma getAssoc_setAssoc_self {β : Type} (k : String) (v : β) (l : List (String × β)) :
    getAssoc k (setAssoc k v l) = some v := by
  induction l with
  | nil => simp [getAssoc, setAssoc]
  | cons kv rest ih =>
    obtain ⟨k2, v2⟩ := kv
    by_cases hk : k2 = k
    · simp [setAssoc, hk, getAssoc]
    · simp [setAssoc, hk, getAssoc, ih]

/-- A value with a readable field is an object, hence truthy. -/
lemma jTruthy_of_jGet (t : Json) (k : String) (v : Json) (h : jGet t k = some v) :
    jTruthy t = true := by
  cases t <;> simp [jGet, jTruthy] at h ⊢

/-- Inserting an order under a fresh orderId appends it. -/
lemma putOrder_fresh (o : Order) (l : List Order) (h : ∀ o2 ∈ l, o2.orderId ≠ o.orderId) :
    putOrder o l = l ++ [o] := by
  induction l with
  | nil => rfl
  | cons a rest ih =>
    have ha : a.orderId ≠ o.orderId := h a (by simp)
    simp only [putOrder, if_neg ha, List.cons_append, List.cons.injEq, true_and]
    exact ih (fun o2 hm => h o2 (by simp [hm]))

/-- Membership after a keyed order insertion. -/
lemma putOrder_mem (o o2 : Order) (l : List Order) (h : o2 ∈ putOrder o l) :
    o2 ∈ l ∨ o2 = o := by
  induction l with
  | nil => simp [putOrder] at h; simp [h]
  | cons a rest ih =>
    by_cases ha : a.orderId = o.orderId
    · simp [putOrder, ha] at h
      rcases h with h | h
      · right; exact h
      · left; simp [h]
    · simp [putOrder, ha] at h
      rcases h with h | h
      · left; simp [h]
      · rcases ih h with h2 | h2
        · left; simp [h2]
        · right; exact h2

/-! ## C2: writing generation fallback -/

/-- C2: for the writing type, if the external generation call fails
(`Except.error`) or its response is not valid JSON (`jp text = none`),
both generators return — rather than throw — the fixed fallback Test:
type `"writing"`, the given level, and exactly one question whose prompt
is the canned essay prompt. -/
theorem writing_generation_fallback (jp : String → Option Json) (level : String)
    (numTasks : Nat) (genId : String) (ai : Except String String)
    (hfail : (∃ e, ai = Except.error e) ∨ ∃ text, ai = Except.ok text ∧ jp text = none) :
    generateTest jp "writing" level numTasks genId ai = fallbackWritingTest genId level ∧
    generateTestApi jp "writing" level numTasks genId ai = fallbackWritingTest genId level ∧
    jGet (fallbackWritingTest genId level) "type" = some (Json.str "writing") ∧
    jGet (fallbackWritingTest genId level) "level" = some (Json.str level) ∧
    ∃ q, jGet (fallbackWritingTest genId level) "questions" = some (Json.arr [q]) ∧
      jGet q "prompt" = some (Json.str FALLBACK_PROMPT) := by
  have heq : generateTest jp "writing" level numTasks genId ai = fallbackWritingTest genId level := by
    rcases hfail with ⟨e, rfl⟩ | ⟨text, rfl, hp⟩
    · rfl
    · simp [generateTest, hp]
  have heq2 : generateTestApi jp "writing" level numTasks genId ai
      = fallbackWritingTest genId level := by
    rcases hfail with ⟨e, rfl⟩ | ⟨text, rfl, hp⟩
    · rfl
    · simp [generateTestApi, hp]
  exact ⟨heq, heq2, rfl, rfl,
    ⟨Json.obj [("id", Json.str "q1"), ("title", Json.str "Task 2"),
       ("prompt", Json.str FALLBACK_PROMPT)], rfl, rfl⟩⟩

/-- Witness for C2 at a concrete unparsable response. -/
theorem writing_generation_fallback_witness :
    generateTest (fun _ => none) "writing" "ielts-6" 1 "t1" (Except.ok "oops")
      = fallbackWritingTest "t1" "ielts-6" ∧
    generateTestApi (fun _ => none) "writing" "ielts-6" 1 "t1" (Except.ok "oops")
      = fallbackWritingTest "t1" "ielts-6" ∧
    jGet (fallbackWritingTest "t1" "ielts-6") "type" = some (Json.str "writing") ∧
    jGet (fallbackWritingTest "t1" "ielts-6") "level" = some (Json.str "ielts-6") ∧
    ∃ q, jGet (fallbackWritingTest "t1" "ielts-6") "questions" = some (Json.arr [q]) ∧
      jGet q "prompt" = some (Json.str FALLBACK_PROMPT) :=
  writing_generation_fallback (fun _ => none) "ielts-6" 1 "t1" (Except.ok "oops")
    (Or.inr ⟨"oops", rfl, rfl⟩)

/-! ## C7: speaking generation -/

/-- C7 counterexample to the claim as stated: the serverless generator
returns a speaking Test with only two parts (no discussion part), so not
every `generate("speaking", …)` of the repository returns the fixed
three-part structure. -/
theorem speaking_api_lacks_discussion :
    jGet (generateTestApi (fun _ => none) "speaking" "ielts-6" 1 "ID1" (Except.ok "x")) "type"
      = some (Json.str "speaking") ∧
    (jGet (generateTestApi (fun _ => none) "speaking" "ielts-6" 1 "ID1" (Except.ok "x"))
        "parts").map
        (fun v => match v with | Json.arr xs => xs.length | _ => 0) = some 2 := by
  exact ⟨rfl, rfl⟩

/-- C7 (amended to the main server): `generateTest` on the speaking type
ignores the parse oracle, the external call outcome and the task count —
it makes no external call — and returns the fixed three-part structure
(personal questions, a long-turn cue with prep/speak time budgets, a
discussion part), varying only in the generated identifier and level.
The serverless variant returns the fixed two-part structure instead. -/
theorem speaking_generation_fixed (jp jp2 : String → Option Json) (level : String)
    (numTasks numTasks2 : Nat) (genId : String) (ai ai2 : Except String String) :
    generateTest jp "speaking" level numTasks genId ai = speakingTest genId level ∧
    generateTest jp "speaking" level numTasks genId ai
      = generateTest jp2 "speaking" level numTasks2 genId ai2 ∧
    generateTestApi jp "speaking" level numTasks genId ai = speakingTestApi genId level ∧
    jGet (speakingTest genId level) "test_id" = some (Json.str genId) ∧
    jGet (speakingTest genId level) "level" = some (Json.str level) ∧
    jGet (speakingTest genId level) "parts" = some (Json.arr
      [Json.obj
        [("part", Json.num 1),
         ("items",
          Json.arr
            [Json.obj [("id", Json.str "p1q1"), ("q", Json.str "What is your full name?")],
             Json.obj [("id", Json.str "p1q2"), ("q", Json.str "Where are you from?")]])],
       Json.obj
        [("part", Json.num 2), ("cue", Json.str "Describe a memorable trip you had."),
         ("prep_time", Json.num 60), ("speak_time", Json.num 120)],
       Json.obj
        [("part", Json.num 3),
         ("items",
          Json.arr
            [Json.obj [("id", Json.str "p3q1"), ("q", Json.str "Why do people travel?")]])]]) :=
  ⟨rfl, rfl, rfl, rfl, rfl, rfl⟩

/-! ## C6: unknown testId on submit -/

/-- C6: a submit against a testId absent from the Test store returns
not-found and leaves the whole state unchanged — no Job record is
created — on both submit handlers; the external-call outcomes
(`tr`, `gr`, `gr2`) are quantified and never consulted, so no external
call can influence the response. -/
theorem submit_unknown_testid (jp : String → Option Json) (st : ServerState) (tid : String)
    (payload : SubmitPayload) (tr gr gr2 : Except String String) (mult : Bool)
    (ans : Option (List Json)) (jobId jobId2 niso niso2 : String)
    (habsent : getAssoc tid st.tests = none) :
    submitExpress jp st tid payload tr gr jobId niso = (SubmitOutcome.notFound, st) ∧
    submitApi jp st tid mult ans gr2 jobId2 niso2 = (SubmitOutcome.notFound, st) := by
  constructor
  · simp [submitExpress, habsent]
  · simp [submitApi, habsent]

/-- Witness for C6 at a concrete empty store. -/
theorem submit_unknown_testid_witness :
    submitExpress (fun _ => none) ⟨[], [], [], []⟩ "missing" SubmitPayload.audio
      (Except.ok "t") (Except.ok "g") "J" "n" = (SubmitOutcome.notFound, ⟨[], [], [], []⟩) ∧
    submitApi (fun _ => none) ⟨[], [], [], []⟩ "missing" false none
      (Except.ok "g") "J2" "n2" = (SubmitOutcome.notFound, ⟨[], [], [], []⟩) :=
  submit_unknown_testid (fun _ => none) ⟨[], [], [], []⟩ "missing" SubmitPayload.audio
    (Except.ok "t") (Except.ok "g") (Except.ok "g") false none "J" "J2" "n" "n2" rfl

/-! ## C1: rate limiting of generation requests -/

/-- C1: on every generation request the serverless order handler first
prunes the client bucket to timestamps newer than 24 hours; with five or
more remaining the request is rejected with the quota error and the
attempt is not recorded (the bucket is only pruned); otherwise it is
accepted and the current timestamp appended, leaving at most five
entries, all newer than 24 hours. Consequently, of six requests from one
client at nondecreasing times inside one 24-hour window, the first five
pass the limiter and the sixth is rejected. -/
theorem rate_limit_contract (now : Nat) (bucket : List Nat) :
    ((rateAllow now bucket).fst = false ↔
       5 ≤ (bucket.filter (fun t => now - t < RATE_WINDOW)).length) ∧
    ((rateAllow now bucket).fst = false →
       (rateAllow now bucket).snd = bucket.filter (fun t => now - t < RATE_WINDOW)) ∧
    ((rateAllow now bucket).fst = true →
       (rateAllow now bucket).snd = bucket.filter (fun t => now - t < RATE_WINDOW) ++ [now] ∧
       (rateAllow now bucket).snd.length ≤ 5 ∧
       ∀ t ∈ (rateAllow now bucket).snd, now - t < RATE_WINDOW) ∧
    (∀ (jp : String → Option Json) (sb : String) (st : ServerState) (ip tt lv : String)
       (n : Nat) (ai : Except String String) (oid gid atid niso : String), tt ≠ "" →
       ((rateAllow now ((getAssoc ip st.rate).getD [])).fst = false →
          orderTestApi jp sb st true ip tt lv n now ai oid gid atid niso
            = (OrderOutcome.quota,
               { st with
                   rate := setAssoc ip (rateAllow now ((getAssoc ip st.rate).getD [])).snd
                     st.rate })) ∧
       ((rateAllow now ((getAssoc ip st.rate).getD [])).fst = true →
          (orderTestApi jp sb st true ip tt lv n now ai oid gid atid niso).snd.rate
            = setAssoc ip (rateAllow now ((getAssoc ip st.rate).getD [])).snd st.rate ∧
          (orderTestApi jp sb st true ip tt lv n now ai oid gid atid niso).fst
            ≠ OrderOutcome.quota)) ∧
    (∀ t1 t2 t3 t4 t5 t6 : Nat,
       t1 ≤ t2 → t2 ≤ t3 → t3 ≤ t4 → t4 ≤ t5 → t5 ≤ t6 → t6 - t1 < RATE_WINDOW →
       (rateAllow t1 []).fst = true ∧
       (rateAllow t2 (rateAllow t1 []).snd).fst = true ∧
       (rateAllow t3 (rateAllow t2 (rateAllow t1 []).snd).snd).fst = true ∧
       (rateAllow t4 (rateAllow t3 (rateAllow t2 (rateAllow t1 []).snd).snd).snd).fst = true ∧
       (rateAllow t5 (rateAllow t4 (rateAllow t3 (rateAllow t2
          (rateAllow t1 []).snd).snd).snd).snd).fst = true ∧
       (rateAllow t6 (rateAllow t5 (rateAllow t4 (rateAllow t3 (rateAllow t2
          (rateAllow t1 []).snd).snd).snd).snd).snd).fst = false) := by
  refine ⟨?_, ?_, ?_, ?_, ?_⟩
  · by_cases h5 : 5 ≤ (bucket.filter (fun t => now - t < RATE_WINDOW)).length <;>
      simp [rateAllow, h5]
  · intro hrej
    by_cases h5 : 5 ≤ (bucket.filter (fun t => now - t < RATE_WINDOW)).length
    · simp [rateAllow, h5]
    · simp [rateAllow, h5] at hrej
  · intro hacc
    by_cases h5 : 5 ≤ (bucket.filter (fun t => now - t < RATE_WINDOW)).length
    · simp [rateAllow, h5] at hacc
    · refine ⟨by simp [rateAllow, h5], ?_, ?_⟩
      · simp only [rateAllow, if_neg h5]
        simp only [List.length_append, List.length_singleton]
        omega
      · intro t ht
        simp only [rateAllow, if_neg h5] at ht
        rcases List.mem_append.mp ht with hmem | hmem
        · exact of_decide_eq_true (List.mem_filter.mp hmem).2
        · simp at hmem
          subst hmem
          simp [RATE_WINDOW]
  · intro jp sb st ip tt lv n ai oid gid atid niso htt
    constructor
    · intro hrej
      simp [orderTestApi, htt, hrej]
    · intro hacc
      constructor
      · by_cases hnull : generateTestApi jp tt (defLevel lv) (defTasks n) gid ai = Json.null <;>
          simp [orderTestApi, htt, hacc, hnull]
      · by_cases hnull : generateTestApi jp tt (defLevel lv) (defTasks n) gid ai = Json.null <;>
          simp [orderTestApi, htt, hacc, hnull]
  · intro t1 t2 t3 t4 t5 t6 h12 h23 h34 h45 h56 hwin
    have w21 : t2 - t1 < RATE_WINDOW := by omega
    have w31 : t3 - t1 < RATE_WINDOW := by omega
    have w32 : t3 - t2 < RATE_WINDOW := by omega
    have w41 : t4 - t1 < RATE_WINDOW := by omega
    have w42 : t4 - t2 < RATE_WINDOW := by omega
    have w43 : t4 - t3 < RATE_WINDOW := by omega
    have w51 : t5 - t1 < RATE_WINDOW := by omega
    have w52 : t5 - t2 < RATE_WINDOW := by omega
    have w53 : t5 - t3 < RATE_WINDOW := by omega
    have w54 : t5 - t4 < RATE_WINDOW := by omega
    have w61 : t6 - t1 < RATE_WINDOW := by omega
    have w62 : t6 - t2 < RATE_WINDOW := by omega
    have w63 : t6 - t3 < RATE_WINDOW := by omega
    have w64 : t6 - t4 < RATE_WINDOW := by omega
    have w65 : t6 - t5 < RATE_WINDOW := by omega
    have e1 : rateAllow t1 [] = (true, [t1]) := by
      simp [rateAllow]
    have e2 : rateAllow t2 [t1] = (true, [t1, t2]) := by
      simp [rateAllow, w21]
    have e3 : rateAllow t3 [t1, t2] = (true, [t1, t2, t3]) := by
      simp [rateAllow, w31, w32]
    have e4 : rateAllow t4 [t1, t2, t3] = (true, [t1, t2, t3, t4]) := by
      simp [rateAllow, w41, w42, w43]
    have e5 : rateAllow t5 [t1, t2, t3, t4] = (true, [t1, t2, t3, t4, t5]) := by
      simp [rateAllow, w51, w52, w53, w54]
    have e6 : (rateAllow t6 [t1, t2, t3, t4, t5]).fst = false := by
      simp [rateAllow, w61, w62, w63, w64, w65]
    rw [e1]
    rw [e2]
    rw [e3]
    rw [e4]
    rw [e5]
    exact ⟨rfl, rfl, rfl, rfl, rfl, e6⟩

/-! ## Submit success analysis -/

/-- Preconditions under which a submit on the main server reaches the
grading call: the test exists and is truthy, and either the request is
multipart with a successful transcription, or it is a JSON request
against a writing test. -/
def submitPre (st : ServerState) (tid : String) (p : SubmitPayload)
    (tr : Except String String) : Prop :=
  ∃ test, getAssoc tid st.tests = some test ∧ jTruthy test = true ∧
    (match p with
     | SubmitPayload.audio => ∃ tsc, tr = Except.ok tsc
     | SubmitPayload.json _ => jGet test "type" = some (Json.str "writing"))

/-- Forward direction: under the preconditions, a submit whose grading
call returns `text` succeeds with result `parseOrRaw jp text`, marks the
matching orders graded, and stores a Job carrying that result. -/
lemma submitExpress_ok_of_pre (jp : String → Option Json) (st : ServerState) (tid : String)
    (p : SubmitPayload) (tr : Except String String) (text jobId niso : String)
    (hpre : submitPre st tid p tr) :
    (submitExpress jp st tid p tr (Except.ok text) jobId niso).fst
      = SubmitOutcome.ok jobId (parseOrRaw jp text) ∧
    (submitExpress jp st tid p tr (Except.ok text) jobId niso).snd.orders
      = st.orders.map (markGraded tid) ∧
    ∃ job, getAssoc jobId
        (submitExpress jp st tid p tr (Except.ok text) jobId niso).snd.submissions
        = some job ∧ job.testId = tid ∧ job.result = parseOrRaw jp text := by
  obtain ⟨test, hg, htr, hrest⟩ := hpre
  cases p with
  | audio =>
    obtain ⟨tsc, rfl⟩ := hrest
    refine ⟨?_, ?_,
      ⟨mkJob jobId tid "speaking" none (some tsc) (parseOrRaw jp text) niso, ?_, rfl, rfl⟩⟩ <;>
      simp [submitExpress, hg, htr, getAssoc_setAssoc_self]
  | json answers =>
    refine ⟨?_, ?_,
      ⟨mkJob jobId tid "writing" (some (answers.getD [])) none (parseOrRaw jp text) niso,
        ?_, rfl, rfl⟩⟩ <;>
      simp [submitExpress, hg, htr, hrest, getAssoc_setAssoc_self]

/-- Backward direction: a successful submit on the main server implies
the preconditions held, the echoed jobId is the minted one, and the
result is the parse-or-raw of the grading response. -/
lemma submitExpress_pre_of_ok (jp : String → Option Json) (st : ServerState) (tid : String)
    (p : SubmitPayload) (tr gr : Except String String) (jobId niso j : String) (r : Json)
    (h : (submitExpress jp st tid p tr gr jobId niso).fst = SubmitOutcome.ok j r) :
    j = jobId ∧ submitPre st tid p tr ∧ ∃ text, gr = Except.ok text ∧ r = parseOrRaw jp text := by
  cases hg : getAssoc tid st.tests with
  | none => simp [submitExpress, hg] at h
  | some test =>
    cases htr : jTruthy test with
    | false => simp [submitExpress, hg, htr] at h
    | true =>
      cases p with
      | audio =>
        cases tr with
        | error e => simp [submitExpress, hg, htr] at h
        | ok tsc =>
          cases gr with
          | error e => simp [submitExpress, hg, htr] at h
          | ok text =>
            simp [submitExpress, hg, htr] at h
            exact ⟨h.1.symm, ⟨test, hg, htr, ⟨tsc, rfl⟩⟩, ⟨text, rfl, h.2.symm⟩⟩
      | json answers =>
        by_cases hty : jGet test "type" = some (Json.str "writing")
        · cases gr with
          | error e => simp [submitExpress, hg, htr, hty] at h
          | ok text =>
            simp [submitExpress, hg, htr, hty] at h
            exact ⟨h.1.symm, ⟨test, hg, htr, hty⟩, ⟨text, rfl, h.2.symm⟩⟩
        · simp [submitExpress, hg, htr, hty] at h

/-- The serverless submit never changes the order store. -/
lemma submitApi_orders (jp : String → Option Json) (st : ServerState) (tid : String)
    (mult : Bool) (ans : Option (List Json)) (gr : Except String String) (jobId niso : String) :
    (submitApi jp st tid mult ans gr jobId niso).snd.orders = st.orders := by
  unfold submitApi
  cases hg : getAssoc tid st.tests with
  | none => rfl
  | some test =>
    cases htr : jTruthy test with
    | false => simp [htr]
    | true =>
      cases mult with
      | true => simp [htr]
      | false =>
        by_cases hty : jGet test "type" = some (Json.str "writing")
        · cases gr with
          | error e => simp [htr, hty]
          | ok text => simp [htr, hty]
        · simp [htr, hty]

/-- A successful serverless submit stores the Job with the parse-or-raw
result. -/
lemma submitApi_ok_spec (jp : String → Option Json) (st : ServerState) (tid : String)
    (mult : Bool) (ans : Option (List Json)) (gr : Except String String)
    (jobId niso j : String) (r : Json)
    (h : (submitApi jp st tid mult ans gr jobId niso).fst = SubmitOutcome.ok j r) :
    j = jobId ∧ (∃ text, gr = Except.ok text ∧ r = parseOrRaw jp text) ∧
    ∃ job, getAssoc jobId (submitApi jp st tid mult ans gr jobId niso).snd.submissions
        = some job ∧ job.testId = tid ∧ job.result = r := by
  cases hg : getAssoc tid st.tests with
  | none => simp [submitApi, hg] at h
  | some test =>
    cases htr : jTruthy test with
    | false => simp [submitApi, hg, htr] at h
    | true =>
      cases mult with
      | true => simp [submitApi, hg, htr] at h
      | false =>
        by_cases hty : jGet test "type" = some (Json.str "writing")
        · cases gr with
          | error e => simp [submitApi, hg, htr, hty] at h
          | ok text =>
            simp [submitApi, hg, htr, hty] at h
            obtain ⟨h1, h2⟩ := h
            subst h1
            refine ⟨rfl, ⟨text, rfl, h2.symm⟩,
              ⟨mkJob jobId tid "writing" (some (ans.getD [])) none (parseOrRaw jp text) niso,
               ?_, rfl, h2⟩⟩
            simp [submitApi, hg, htr, hty, getAssoc_setAssoc_self]
        · simp [submitApi, hg, htr, hty] at h

/-! ## C3: order status after a successful submit -/

/-- A concrete stored writing Test used in counterexamples and witnesses. -/
def wTest1 : Json :=
  Json.obj
    [("test_id", Json.str "T1"), ("type", Json.str "writing"), ("level", Json.str "ielts-6"),
     ("questions", Json.arr [])]

/-- A concrete ready Order referencing `wTest1`. -/
def wOrder1 : Order :=
  { orderId := "O1", testId := "T1", test := wTest1, status := "ready", createdAt := "t0",
    type := "writing", level := "ielts-6", testUrl := "/?testId=T1" }

/-- A concrete ready Order referencing a different test. -/
def wOrder2 : Order :=
  { orderId := "O2", testId := "T2", test := Json.null, status := "ready", createdAt := "t0",
    type := "writing", level := "ielts-6", testUrl := "/?testId=T2" }

/-- A concrete state holding `wTest1` and the two orders. -/
def wState1 : ServerState :=
  { tests := [("T1", wTest1)], orders := [wOrder1, wOrder2], submissions := [], rate := [] }

/-- C3 counterexample to the claim as stated: the serverless submit
handler completes successfully against testId `"T1"` — it creates the
Job and echoes the graded result — yet the stored Order referencing
`"T1"` still has status `"ready"`, not `"graded"`. -/
theorem submitApi_leaves_order_ready :
    (submitApi (fun _ => none) wState1 "T1" false (some []) (Except.ok "gr") "J1" "t1").fst
      = SubmitOutcome.ok "J1" (Json.obj [("raw", Json.str "gr")]) ∧
    (submitApi (fun _ => none) wState1 "T1" false (some []) (Except.ok "gr") "J1" "t1").snd.orders
      = [wOrder1, wOrder2] ∧
    wOrder1.testId = "T1" ∧ wOrder1.status = "ready" := by
  decide

/-- C3 (amended to the main server submit route, the one with the
writing and speaking paths): after every successful submit against
`tid`, every stored Order whose testId equals `tid` has status
`"graded"`, and every Order entry whose testId differs is unchanged in
all fields; the order list is exactly the element-wise `markGraded`
image. The serverless submit handler does not update order statuses. -/
theorem submit_marks_matching_orders (jp : String → Option Json) (st : ServerState)
    (tid : String) (p : SubmitPayload) (tr gr : Except String String) (jobId niso j : String)
    (r : Json)
    (h : (submitExpress jp st tid p tr gr jobId niso).fst = SubmitOutcome.ok j r) :
    (submitExpress jp st tid p tr gr jobId niso).snd.orders
      = st.orders.map (markGraded tid) ∧
    (∀ o2 ∈ (submitExpress jp st tid p tr gr jobId niso).snd.orders,
       o2.testId = tid → o2.status = "graded") ∧
    (submitExpress jp st tid p tr gr jobId niso).snd.orders.length = st.orders.length ∧
    ∀ i (hi : i < st.orders.length)
      (hi2 : i < (submitExpress jp st tid p tr gr jobId niso).snd.orders.length),
      (st.orders[i].testId ≠ tid →
        (submitExpress jp st tid p tr gr jobId niso).snd.orders[i] = st.orders[i]) ∧
      (st.orders[i].testId = tid →
        (submitExpress jp st tid p tr gr jobId niso).snd.orders[i]
          = { st.orders[i] with status := "graded" }) := by
  obtain ⟨hj, hpre, text, rfl, hr⟩ := submitExpress_pre_of_ok jp st tid p tr gr jobId niso j r h
  obtain ⟨-, hmap, -⟩ := submitExpress_ok_of_pre jp st tid p tr text jobId niso hpre
  refine ⟨hmap, ?_, ?_, ?_⟩
  · intro o2 hm htid
    rw [hmap] at hm
    obtain ⟨o, ho, rfl⟩ := List.mem_map.mp hm
    by_cases hh : o.testId = tid
    · unfold markGraded
      rw [if_pos hh]
    · unfold markGraded at htid
      rw [if_neg hh] at htid
      exact absurd htid hh
  · rw [hmap]; simp
  · intro i hi hi2
    constructor
    · intro hne
      simp only [hmap, List.getElem_map]
      unfold markGraded
      rw [if_neg hne]
    · intro heq
      simp only [hmap, List.getElem_map]
      unfold markGraded
      rw [if_pos heq]

/-- Witness for C3 at a concrete successful writing submit: the matching
order becomes graded, the other order is untouched. -/
theorem submit_marks_matching_orders_witness :
    (submitExpress (fun _ => none) wState1 "T1" (SubmitPayload.json (some []))
      (Except.error "unused") (Except.ok "gr") "J1" "t1").snd.orders
      = wState1.orders.map (markGraded "T1") :=
  (submit_marks_matching_orders (fun _ => none) wState1 "T1" (SubmitPayload.json (some []))
    (Except.error "unused") (Except.ok "gr") "J1" "t1" "J1"
    (Json.obj [("raw", Json.str "gr")]) (by decide)).1

/-! ## C5: grading parse fallback -/

/-- C5: when the grading call returns text that is not valid JSON
(`jp text = none`), a submit that succeeds — on the main server speaking
or writing path, or on the serverless writing path — stores a Job whose
result is exactly the object with the single field `raw` holding that
text verbatim, and echoes the same object; moreover whenever a submit on
the main server would succeed with some grading response, it also
succeeds when the response is the non-JSON `text`, so the unparsable
response never fails the request. -/
theorem grading_raw_fallback (jp : String → Option Json) (st : ServerState) (tid : String)
    (p : SubmitPayload) (tr : Except String String) (text : String) (mult : Bool)
    (ans : Option (List Json)) (jobId niso : String)
    (hparse : jp text = none) :
    (∀ j r, (submitExpress jp st tid p tr (Except.ok text) jobId niso).fst
        = SubmitOutcome.ok j r →
       r = Json.obj [("raw", Json.str text)] ∧
       ∃ job, getAssoc jobId
           (submitExpress jp st tid p tr (Except.ok text) jobId niso).snd.submissions
           = some job ∧ job.result = Json.obj [("raw", Json.str text)]) ∧
    (∀ j r, (submitApi jp st tid mult ans (Except.ok text) jobId niso).fst
        = SubmitOutcome.ok j r →
       r = Json.obj [("raw", Json.str text)] ∧
       ∃ job, getAssoc jobId
           (submitApi jp st tid mult ans (Except.ok text) jobId niso).snd.submissions
           = some job ∧ job.result = Json.obj [("raw", Json.str text)]) ∧
    (∀ gr2 : Except String String,
       (∃ j2 r2, (submitExpress jp st tid p tr gr2 jobId niso).fst = SubmitOutcome.ok j2 r2) →
       (submitExpress jp st tid p tr (Except.ok text) jobId niso).fst
         = SubmitOutcome.ok jobId (Json.obj [("raw", Json.str text)])) := by
  have hraw : parseOrRaw jp text = Json.obj [("raw", Json.str text)] := by
    simp [parseOrRaw, hparse]
  refine ⟨?_, ?_, ?_⟩
  · intro j r h
    obtain ⟨hj, hpre, text2, hgr, hr⟩ :=
      submitExpress_pre_of_ok jp st tid p tr (Except.ok text) jobId niso j r h
    have htext : text = text2 := Except.ok.inj hgr
    subst htext
    obtain ⟨-, -, job, hjob, -, hres⟩ :=
      submitExpress_ok_of_pre jp st tid p tr text jobId niso hpre
    exact ⟨by rw [hr, hraw], ⟨job, hjob, by rw [hres, hraw]⟩⟩
  · intro j r h
    obtain ⟨hj, ⟨text2, hgr, hr⟩, job, hjob, -, hres⟩ :=
      submitApi_ok_spec jp st tid mult ans (Except.ok text) jobId niso j r h
    have htext : text = text2 := Except.ok.inj hgr
    subst htext
    exact ⟨by rw [hr, hraw], ⟨job, hjob, by rw [hres, hr, hraw]⟩⟩
  · intro gr2 ⟨j2, r2, h2⟩
    obtain ⟨-, hpre, -⟩ :=
      submitExpress_pre_of_ok jp st tid p tr gr2 jobId niso j2 r2 h2
    have := (submitExpress_ok_of_pre jp st tid p tr text jobId niso hpre).1
    rw [hraw] at this
    exact this

/-- Witness for C5 at a concrete writing submit whose grading response
is unparsable. -/
theorem grading_raw_fallback_witness :
    (submitExpress (fun _ => none) wState1 "T1" (SubmitPayload.json (some []))
      (Except.error "unused") (Except.ok "five out of ten") "J1" "t1").fst
      = SubmitOutcome.ok "J1" (Json.obj [("raw", Json.str "five out of ten")]) :=
  (grading_raw_fallback (fun _ => none) wState1 "T1" (SubmitPayload.json (some []))
    (Except.error "unused") "five out of ten" false (some []) "J1" "t1" rfl).2.2
    (Except.ok "five out of ten")
    ⟨"J1", Json.obj [("raw", Json.str "five out of ten")], by decide⟩

/-! ## C10: writing submit with missing answers -/

/-- C10: against a stored writing Test, a JSON submit whose answers
field is missing (`none`), empty, or whose first answer has no
answerText field is not rejected: the essay extracted for the grading
prompt is the empty string, the grading call proceeds (here returning
`text`), and a Job record is created for the submission. -/
theorem writing_submit_tolerates_missing_answers (jp : String → Option Json)
    (st : ServerState) (tid : String) (test : Json) (answers : Option (List Json))
    (tr : Except String String) (text jobId niso : String)
    (hg : getAssoc tid st.tests = some test)
    (htype : jGet test "type" = some (Json.str "writing"))
    (hans : answers = none ∨ answers = some [] ∨
      ∃ a rest, answers = some (a :: rest) ∧ jGet a "answerText" = none) :
    essayStr (answers.getD []) = "" ∧
    (submitExpress jp st tid (SubmitPayload.json answers) tr (Except.ok text) jobId niso).fst
      = SubmitOutcome.ok jobId (parseOrRaw jp text) ∧
    ∃ job, getAssoc jobId
        (submitExpress jp st tid (SubmitPayload.json answers) tr
          (Except.ok text) jobId niso).snd.submissions
        = some job ∧ job.testId = tid ∧ job.type = "writing" ∧
        job.answers = some (answers.getD []) := by
  have htru : jTruthy test = true := jTruthy_of_jGet test "type" _ htype
  have hpre : submitPre st tid (SubmitPayload.json answers) tr := ⟨test, hg, htru, htype⟩
  have hok := (submitExpress_ok_of_pre jp st tid (SubmitPayload.json answers) tr
    text jobId niso hpre).1
  refine ⟨?_, hok, ?_⟩
  · rcases hans with rfl | rfl | ⟨a, rest, rfl, ha⟩
    · rfl
    · rfl
    · simp [essayStr, ha]
  · refine ⟨mkJob jobId tid "writing" (some (answers.getD [])) none (parseOrRaw jp text) niso,
      ?_, rfl, rfl, rfl⟩
    simp [submitExpress, hg, htru, htype, getAssoc_setAssoc_self]

/-- Witness for C10 at a concrete submit with an empty answers array. -/
theorem writing_submit_tolerates_missing_answers_witness :
    essayStr ((some ([] : List Json)).getD []) = "" ∧
    (submitExpress (fun _ => none) wState1 "T1" (SubmitPayload.json (some []))
      (Except.error "unused") (Except.ok "gr") "J1" "t1").fst
      = SubmitOutcome.ok "J1" (parseOrRaw (fun _ => none) "gr") ∧
    ∃ job, getAssoc "J1"
        (submitExpress (fun _ => none) wState1 "T1" (SubmitPayload.json (some []))
          (Except.error "unused") (Except.ok "gr") "J1" "t1").snd.submissions
        = some job ∧ job.testId = "T1" ∧ job.type = "writing" ∧
        job.answers = some ((some ([] : List Json)).getD []) :=
  writing_submit_tolerates_missing_answers (fun _ => none) wState1 "T1" wTest1 (some [])
    (Except.error "unused") "gr" "J1" "t1" rfl rfl (Or.inr (Or.inl rfl))

/-! ## C9: a stored test is retrievable right after ordering -/

/-- C9 counterexample to the claim as stated: when the model response
parses to the falsy JSON value `false`, the order request is accepted
(the caller gets ok with a testId), the value is stored, yet fetching
that testId immediately afterwards returns not-found, because the fetch
route treats a falsy stored test as absent. -/
theorem order_accepts_falsy_parsed_test :
    (orderTestExpress (fun _ => some (Json.bool false)) "" ⟨[], [], [], []⟩ "writing" "" 0
      (Except.ok "false") "O1" "G1" "A1" "T0").fst = OrderOutcome.ok "O1" "A1" "/?testId=A1" ∧
    getTestRoute (orderTestExpress (fun _ => some (Json.bool false)) "" ⟨[], [], [], []⟩
      "writing" "" 0 (Except.ok "false") "O1" "G1" "A1" "T0").snd "A1"
      = GetOutcome.notFound := by
  decide

/-- C9 (amended): for every accepted generation request whose generated
test value is truthy — which covers the fallback, speaking and stub
generators and every model response parsed to a JSON object — the
returned testId fetches, with no intervening operation, exactly the Test
the generation stored; only a falsy parsed scalar (for example JSON
`false`) escapes, in which case the order is accepted but the fetch
reports not-found. -/
theorem order_then_get (jp : String → Option Json) (sb : String) (st : ServerState)
    (tt lv : String) (n : Nat) (ai : Except String String) (oid gid atid niso : String)
    (htt : tt ≠ "")
    (htruthy : jTruthy (generateTest jp tt (defLevel lv) (defTasks n) gid ai) = true) :
    ∃ tid turl,
      (orderTestExpress jp sb st tt lv n ai oid gid atid niso).fst
        = OrderOutcome.ok oid tid turl ∧
      getTestRoute (orderTestExpress jp sb st tt lv n ai oid gid atid niso).snd tid
        = GetOutcome.ok (generateTest jp tt (defLevel lv) (defTasks n) gid ai) := by
  have hnn : generateTest jp tt (defLevel lv) (defTasks n) gid ai ≠ Json.null := by
    intro hh
    rw [hh] at htruthy
    simp [jTruthy] at htruthy
  refine ⟨testIdOf (generateTest jp tt (defLevel lv) (defTasks n) gid ai) atid,
    mkTestUrl sb (testIdOf (generateTest jp tt (defLevel lv) (defTasks n) gid ai) atid),
    ?_, ?_⟩
  · simp [orderTestExpress, htt, hnn]
  · simp [orderTestExpress, htt, hnn, getTestRoute, getAssoc_setAssoc_self, htruthy]

/-- Witness for C9 at a concrete speaking order against an empty store. -/
theorem order_then_get_witness :
    ∃ tid turl,
      (orderTestExpress (fun _ => none) "" ⟨[], [], [], []⟩ "speaking" "" 0 (Except.ok "")
        "O1" "G1" "A1" "T0").fst = OrderOutcome.ok "O1" tid turl ∧
      getTestRoute (orderTestExpress (fun _ => none) "" ⟨[], [], [], []⟩ "speaking" "" 0
        (Except.ok "") "O1" "G1" "A1" "T0").snd tid
        = GetOutcome.ok (generateTest (fun _ => none) "speaking" (defLevel "") (defTasks 0)
            "G1" (Except.ok "")) :=
  order_then_get (fun _ => none) "" ⟨[], [], [], []⟩ "speaking" "" 0 (Except.ok "")
    "O1" "G1" "A1" "T0" (by decide) (by decide)

/-! ## C4: order status monotonicity -/

/-- Positional monotonicity between two order lists: the old entries are
still at their positions with the same orderId, and a graded entry stays
graded. -/
def OrdersMono (l l2 : List Order) : Prop :=
  l.length ≤ l2.length ∧
  ∀ i (hi : i < l.length) (hi2 : i < l2.length),
    l2[i].orderId = l[i].orderId ∧ (l[i].status = "graded" → l2[i].status = "graded")

lemma ordersMono_rfl (l : List Order) : OrdersMono l l :=
  ⟨le_rfl, fun _ _ _ => ⟨rfl, fun h => h⟩⟩

lemma ordersMono_trans {l1 l2 l3 : List Order} (h12 : OrdersMono l1 l2)
    (h23 : OrdersMono l2 l3) : OrdersMono l1 l3 := by
  obtain ⟨hn12, h12⟩ := h12
  obtain ⟨hn23, h23⟩ := h23
  refine ⟨le_trans hn12 hn23, fun i hi hi3 => ?_⟩
  have hi2 : i < l2.length := lt_of_lt_of_le hi hn12
  obtain ⟨ha, hb⟩ := h12 i hi hi2
  obtain ⟨hc, hd⟩ := h23 i hi2 hi3
  exact ⟨hc.trans ha, fun hg => hd (hb hg)⟩

lemma ordersMono_append (l : List Order) (o : Order) : OrdersMono l (l ++ [o]) := by
  refine ⟨by simp, fun i hi hi2 => ?_⟩
  rw [List.getElem_append_left hi]
  exact ⟨rfl, fun h => h⟩

lemma ordersMono_map_markGraded (l : List Order) (tid : String) :
    OrdersMono l (l.map (markGraded tid)) := by
  refine ⟨by simp, fun i hi hi2 => ?_⟩
  simp only [List.getElem_map]
  unfold markGraded
  by_cases hh : l[i].testId = tid
  · rw [if_pos hh]
    exact ⟨rfl, fun _ => rfl⟩
  · rw [if_neg hh]
    exact ⟨rfl, fun h => h⟩

/-- The order store after the main order route: unchanged, or a keyed
insertion of a fresh ready order under the requested orderId. -/
lemma orderTestExpress_orders_cases (jp : String → Option Json) (sb : String)
    (st : ServerState) (tt lv : String) (n : Nat) (ai : Except String String)
    (oid gid atid niso : String) :
    (orderTestExpress jp sb st tt lv n ai oid gid atid niso).snd.orders = st.orders ∨
    ∃ o : Order, o.orderId = oid ∧ o.status = "ready" ∧
      (orderTestExpress jp sb st tt lv n ai oid gid atid niso).snd.orders
        = putOrder o st.orders := by
  by_cases htt : tt = ""
  · left
    simp [orderTestExpress, htt]
  · by_cases hnull : generateTest jp tt (defLevel lv) (defTasks n) gid ai = Json.null
    · left
      simp [orderTestExpress, htt, hnull]
    · right
      refine ⟨Order.mk oid (testIdOf (generateTest jp tt (defLevel lv) (defTasks n) gid ai) atid)
        (generateTest jp tt (defLevel lv) (defTasks n) gid ai) "ready" niso tt (defLevel lv)
        (mkTestUrl sb (testIdOf (generateTest jp tt (defLevel lv) (defTasks n) gid ai) atid)),
        rfl, rfl, ?_⟩
      simp [orderTestExpress, htt, hnull]

/-- The order store after the serverless order route: unchanged, or a
keyed insertion of a fresh ready order under the requested orderId. -/
lemma orderTestApi_orders_cases (jp : String → Option Json) (sb : String)
    (st : ServerState) (post : Bool) (ip tt lv : String) (n : Nat) (now : Nat)
    (ai : Except String String) (oid gid atid niso : String) :
    (orderTestApi jp sb st post ip tt lv n now ai oid gid atid niso).snd.orders
      = st.orders ∨
    ∃ o : Order, o.orderId = oid ∧ o.status = "ready" ∧
      (orderTestApi jp sb st post ip tt lv n now ai oid gid atid niso).snd.orders
        = putOrder o st.orders := by
  cases post with
  | false => left; rfl
  | true =>
    by_cases htt : tt = ""
    · left
      simp [orderTestApi, htt]
    · by_cases hra : (rateAllow now ((getAssoc ip st.rate).getD [])).fst = false
      · left
        simp [orderTestApi, htt, hra]
      · by_cases hnull : generateTestApi jp tt (defLevel lv) (defTasks n) gid ai = Json.null
        · left
          simp [orderTestApi, htt, hra, hnull]
        · right
          refine ⟨Order.mk oid
            (testIdOf (generateTestApi jp tt (defLevel lv) (defTasks n) gid ai) atid)
            (generateTestApi jp tt (defLevel lv) (defTasks n) gid ai) "ready" niso tt
            (defLevel lv)
            (mkTestUrl sb (testIdOf (generateTestApi jp tt (defLevel lv) (defTasks n) gid ai) atid)),
            rfl, rfl, ?_⟩
          simp [orderTestApi, htt, hra, hnull]

/-- The order store after the main submit route: unchanged, or the
element-wise `markGraded` image. -/
lemma submitExpress_orders_cases (jp : String → Option Json) (st : ServerState)
    (tid : String) (p : SubmitPayload) (tr gr : Except String String) (jobId niso : String) :
    (submitExpress jp st tid p tr gr jobId niso).snd.orders = st.orders ∨
    (submitExpress jp st tid p tr gr jobId niso).snd.orders
      = st.orders.map (markGraded tid) := by
  cases hg : getAssoc tid st.tests with
  | none => left; simp [submitExpress, hg]
  | some test =>
    cases htr : jTruthy test with
    | false => left; simp [submitExpress, hg, htr]
    | true =>
      cases p with
      | audio =>
        cases tr with
        | error e => left; simp [submitExpress, hg, htr]
        | ok tsc =>
          cases gr with
          | error e => left; simp [submitExpress, hg, htr]
          | ok text => right; simp [submitExpress, hg, htr]
      | json answers =>
        by_cases hty : jGet test "type" = some (Json.str "writing")
        · cases gr with
          | error e => left; simp [submitExpress, hg, htr, hty]
          | ok text => right; simp [submitExpress, hg, htr, hty]
        · left; simp [submitExpress, hg, htr, hty]

/-- One fresh operation only moves order statuses forward. -/
lemma step_ordersMono (jp : String → Option Json) (st : ServerState) (op : Op)
    (h : opFresh st op = true) : OrdersMono st.orders (step jp st op).orders := by
  cases op with
  | orderE sb tt lv n ai oid gid atid niso =>
    have hfr : ∀ o2 ∈ st.orders, o2.orderId ≠ oid := by
      intro o2 hm
      have := List.all_eq_true.mp h o2 hm
      simpa using this
    rcases orderTestExpress_orders_cases jp sb st tt lv n ai oid gid atid niso with
      heq | ⟨o, hoid, -, heq⟩
    · rw [step, heq]
      exact ordersMono_rfl _
    · rw [step, heq, putOrder_fresh o st.orders (fun o2 hm => hoid ▸ hfr o2 hm)]
      exact ordersMono_append _ _
  | orderA sb post ip tt lv n now ai oid gid atid niso =>
    have hfr : ∀ o2 ∈ st.orders, o2.orderId ≠ oid := by
      intro o2 hm
      have := List.all_eq_true.mp h o2 hm
      simpa using this
    rcases orderTestApi_orders_cases jp sb st post ip tt lv n now ai oid gid atid niso with
      heq | ⟨o, hoid, -, heq⟩
    · rw [step, heq]
      exact ordersMono_rfl _
    · rw [step, heq, putOrder_fresh o st.orders (fun o2 hm => hoid ▸ hfr o2 hm)]
      exact ordersMono_append _ _
  | submitE tid p tr gr jid niso =>
    rcases submitExpress_orders_cases jp st tid p tr gr jid niso with heq | heq
    · rw [step, heq]
      exact ordersMono_rfl _
    · rw [step, heq]
      exact ordersMono_map_markGraded _ _
  | submitA tid m ans gr jid niso =>
    rw [step, submitApi_orders]
    exact ordersMono_rfl _
  | getT tid => exact ordersMono_rfl _
  | getJ jid => exact ordersMono_rfl _
  | listT sb => exact ordersMono_rfl _
  | health => exact ordersMono_rfl _

/-- A fresh run only moves order statuses forward. -/
lemma runOps_ordersMono (jp : String → Option Json) (st : ServerState) (ops : List Op)
    (h : freshRun jp st ops = true) : OrdersMono st.orders (runOps jp st ops).orders := by
  induction ops generalizing st with
  | nil => exact ordersMono_rfl _
  | cons op ops ih =>
    rw [freshRun, Bool.and_eq_true] at h
    exact ordersMono_trans (step_ordersMono jp st op h.1) (ih _ h.2)

/-- C4: order status is monotonic across every operation of the service.
Along any run of operations whose minted orderIds are fresh (the
UUID-strength assumption), every stored Order keeps its position and its
orderId, and once its status is `"graded"` it stays `"graded"`; moreover
each order route only adds Orders with status `"ready"`, leaving
existing entries as members. -/
theorem order_status_monotonic (jp : String → Option Json) (st : ServerState)
    (ops : List Op) (hfresh : freshRun jp st ops = true) :
    (st.orders.length ≤ (runOps jp st ops).orders.length ∧
     ∀ i (hi : i < st.orders.length) (hi2 : i < (runOps jp st ops).orders.length),
       (runOps jp st ops).orders[i].orderId = st.orders[i].orderId ∧
       (st.orders[i].status = "graded" → (runOps jp st ops).orders[i].status = "graded")) ∧
    (∀ (sb tt lv : String) (n : Nat) (ai : Except String String) (oid gid atid niso : String),
       ∀ o2 ∈ (orderTestExpress jp sb st tt lv n ai oid gid atid niso).snd.orders,
         o2 ∈ st.orders ∨ o2.status = "ready") ∧
    (∀ (sb : String) (post : Bool) (ip tt lv : String) (n now : Nat)
       (ai : Except String String) (oid gid atid niso : String),
       ∀ o2 ∈ (orderTestApi jp sb st post ip tt lv n now ai oid gid atid niso).snd.orders,
         o2 ∈ st.orders ∨ o2.status = "ready") := by
  refine ⟨runOps_ordersMono jp st ops hfresh, ?_, ?_⟩
  · intro sb tt lv n ai oid gid atid niso o2 hm
    rcases orderTestExpress_orders_cases jp sb st tt lv n ai oid gid atid niso with
      heq | ⟨o, -, hst, heq⟩
    · rw [heq] at hm
      exact Or.inl hm
    · rw [heq] at hm
      rcases putOrder_mem o o2 st.orders hm with h2 | h2
      · exact Or.inl h2
      · right
        rw [h2]
        exact hst
  · intro sb post ip tt lv n now ai oid gid atid niso o2 hm
    rcases orderTestApi_orders_cases jp sb st post ip tt lv n now ai oid gid atid niso with
      heq | ⟨o, -, hst, heq⟩
    · rw [heq] at hm
      exact Or.inl hm
    · rw [heq] at hm
      rcases putOrder_mem o o2 st.orders hm with h2 | h2
      · exact Or.inl h2
      · right
        rw [h2]
        exact hst

/-- A concrete state with an already graded order, for the C4 witness. -/
def w4State : ServerState :=
  { tests := [("T1", wTest1)],
    orders := [{ wOrder1 with status := "graded" }, wOrder2],
    submissions := [], rate := [] }

/-- A concrete run for the C4 witness: one writing submit, one health
check. -/
def w4Ops : List Op :=
  [Op.submitE "T1" (SubmitPayload.json (some [])) (Except.error "x") (Except.ok "g") "J9" "t9",
   Op.health]

/-- Witness for C4 on a concrete fresh run: the graded order at
position 0 is still graded afterwards. -/
theorem order_status_monotonic_witness :
    w4State.orders.length ≤ (runOps (fun _ => none) w4State w4Ops).orders.length ∧
    ((runOps (fun _ => none) w4State w4Ops).orders.get ⟨0, by decide⟩).status = "graded" := by
  have h := order_status_monotonic (fun _ => none) w4State w4Ops (by decide)
  refine ⟨h.1.1, ?_⟩
  have h0 := (h.1.2 0 (by decide) (by decide)).2 (by decide)
  simpa [List.get_eq_getElem] using h0

/-- A concrete state whose client bucket already holds five timestamps
inside the 24-hour window of time 10, for the C1 counterexample. -/
def wRateState : ServerState :=
  { tests := [], orders := [], submissions := [],
    rate := [("ip1", [1, 2, 3, 4, 5])] }

/-- C1 counterexample to the claim as stated: the main server order
route has no rate limiter. With five in-window timestamps already in the
client bucket — a state in which the limiter of the serverless handler
rejects the request — the Express POST /api/order-test still accepts the
sixth request, and it neither prunes nor appends to any bucket: the rate
store is returned unchanged. -/
theorem express_order_not_rate_limited :
    (rateAllow 10 ((getAssoc "ip1" wRateState.rate).getD [])).fst = false ∧
    (orderTestExpress (fun _ => none) "" wRateState "speaking" "" 0 (Except.ok "")
      "O1" "G1" "A1" "T0").fst = OrderOutcome.ok "O1" "G1" "/?testId=G1" ∧
    (orderTestExpress (fun _ => none) "" wRateState "speaking" "" 0 (Except.ok "")
      "O1" "G1" "A1" "T0").snd.rate = wRateState.rate := by
  decide
